import Mathlib

/-!
Shallow embedding of contrib-style extension pg_plan_watch
(src/pg_plan_watch.c) and proofs about its executor-hook wrappers.

The extension installs wrappers around the four executor lifecycle
phases.  The wrappers read a set of GUC configuration variables and a
process-wide nesting counter; at end-phase they render an EXPLAIN
report and emit it through ereport.  We model the configuration as a
structure, the mutable parts of QueryDesc that the extension touches
as a structure, and each wrapper as a pure function.  Fallible host
calls (rendering, a delegated hook raising elog(ERROR)) are modelled
with Except; C longjmp error propagation becomes explicit propagation
of the error value.
-/

namespace PgPlanWatch

/-- EXPLAIN output formats, from commands/explain_state.h, as listed in
the extension's format_options table. -/
inductive Format
  | text
  | xml
  | json
  | yaml
deriving DecidableEq, Repr

/-- The extension's GUC variables (pg_plan_watch.c lines 28-39).
`log_min_duration` is milliseconds, -1 meaning disabled;
`log_parameter_max_length` is bytes, -1 meaning unlimited. -/
structure Config where
  log_min_duration : Int
  log_parameter_max_length : Int
  log_analyze : Bool
  log_verbose : Bool
  log_buffers : Bool
  log_wal : Bool
  log_triggers : Bool
  log_timing : Bool
  log_settings : Bool
  log_format : Format
  log_level : Nat
  log_nested_statements : Bool
deriving DecidableEq, Repr

/-- Instrumentation category bits, from executor/instrument.h. -/
def INSTRUMENT_TIMER : Nat := 1

def INSTRUMENT_BUFFERS : Nat := 2

def INSTRUMENT_WAL : Nat := 4

def INSTRUMENT_ROWS : Nat := 8

/-- EXEC_FLAG_EXPLAIN_ONLY = 0x0001, from executor/executor.h. -/
def EXEC_FLAG_EXPLAIN_ONLY : Nat := 1

/-- The whole-execution instrumentation accumulator (queryDesc->totaltime).
We track the finalized total elapsed time; since the report prints it as
milliseconds with three decimals, we carry it in integer microseconds. -/
structure Instr where
  total : Nat
deriving DecidableEq, Repr

/-- The fields of QueryDesc that the extension reads or writes:
the per-node instrumentation options bitset and the optional
whole-execution accumulator. -/
structure QueryDesc where
  instrument_options : Nat
  totaltime : Option Instr
deriving DecidableEq, Repr

/-- Host-engine failure (elog/ereport at ERROR level), which in C
unwinds via longjmp. -/
inductive PgError
  | renderFailure
deriving DecidableEq, Repr

/-- The gate macro (pg_plan_watch.c lines 66-68):
enabled iff log_min_duration >= 0 and (nesting_level == 0 or
log_nested_statements). -/
def pg_plan_watch_enabled (cfg : Config) (nesting_level : Nat) : Bool :=
  decide (0 ≤ cfg.log_min_duration) &&
    (decide (nesting_level = 0) || cfg.log_nested_statements)

/-- First |= statement of the start hook: timer- or row-based timing
category (lines 253-256). -/
def addTiming (cfg : Config) (qd : QueryDesc) : QueryDesc :=
  if cfg.log_timing then
    { qd with instrument_options := qd.instrument_options ||| INSTRUMENT_TIMER }
  else
    { qd with instrument_options := qd.instrument_options ||| INSTRUMENT_ROWS }

/-- Buffer category request (lines 257-258). -/
def addBuffers (cfg : Config) (qd : QueryDesc) : QueryDesc :=
  if cfg.log_buffers then
    { qd with instrument_options := qd.instrument_options ||| INSTRUMENT_BUFFERS }
  else qd

/-- WAL category request (lines 259-260). -/
def addWal (cfg : Config) (qd : QueryDesc) : QueryDesc :=
  if cfg.log_wal then
    { qd with instrument_options := qd.instrument_options ||| INSTRUMENT_WAL }
  else qd

/-- The start hook's pre-delegation step (lines 248-262): when the gate
is enabled, log_analyze is set and the execution is not EXPLAIN-only,
request instrumentation categories on the context's bitset. -/
def executorStartPre (cfg : Config) (nesting_level : Nat) (qd : QueryDesc)
    (eflags : Nat) : QueryDesc :=
  if pg_plan_watch_enabled cfg nesting_level then
    if cfg.log_analyze && decide (eflags &&& EXEC_FLAG_EXPLAIN_ONLY = 0) then
      addWal cfg (addBuffers cfg (addTiming cfg qd))
    else qd
  else qd

/-- The start hook's post-delegation step (lines 273-288): when the gate
is enabled and the context has no whole-execution accumulator yet,
allocate one (InstrAlloc, zero-initialized) in the per-query context. -/
def executorStartPost (cfg : Config) (nesting_level : Nat)
    (qd : QueryDesc) : QueryDesc :=
  if pg_plan_watch_enabled cfg nesting_level then
    match qd.totaltime with
    | none => { qd with totaltime := some { total := 0 } }
    | some _ => qd
  else qd

/-- explain_ExecutorStart (lines 243-291): pre-step, delegate to the
prior hook (or standard_ExecutorStart), propagate plan invalidation,
otherwise post-step.  The delegate is passed explicitly. -/
def explain_ExecutorStart (cfg : Config) (nesting_level : Nat)
    (delegate : QueryDesc → Nat → Bool × QueryDesc)
    (qd : QueryDesc) (eflags : Nat) : Bool × QueryDesc :=
  let r := delegate (executorStartPre cfg nesting_level qd eflags) eflags
  if r.fst then (true, executorStartPost cfg nesting_level r.snd)
  else (false, r.snd)

/-- explain_ExecutorRun (lines 296-313): increment the nesting level,
delegate inside PG_TRY, decrement in PG_FINALLY on both the normal and
the error path, rethrowing the error.  Returns the delegate's outcome
and the nesting level after the call. -/
def explain_ExecutorRun (nesting_level : Nat)
    (delegate : Nat → Except PgError Unit) : Except PgError Unit × Nat :=
  match delegate (nesting_level + 1) with
  | Except.ok u => (Except.ok u, nesting_level + 1 - 1)
  | Except.error e => (Except.error e, nesting_level + 1 - 1)

/-- explain_ExecutorFinish (lines 318-334): same bracket as the run
hook. -/
def explain_ExecutorFinish (nesting_level : Nat)
    (delegate : Nat → Except PgError Unit) : Except PgError Unit × Nat :=
  match delegate (nesting_level + 1) with
  | Except.ok u => (Except.ok u, nesting_level + 1 - 1)
  | Except.error e => (Except.error e, nesting_level + 1 - 1)

/-- The ExplainState fields the end hook sets (lines 360-371), plus
`costs`, which NewExplainState initializes to true and the hook reads at
line 379. -/
structure ExplainState where
  analyze : Bool
  verbose : Bool
  buffers : Bool
  wal : Bool
  timing : Bool
  summary : Bool
  format : Format
  settings : Bool
  costs : Bool
deriving DecidableEq, Repr

/-- The rendering configuration built at lines 360-371.  In C,
`queryDesc->instrument_options` is tested as a truthy int. -/
def makeExplainState (cfg : Config) (qd : QueryDesc) : ExplainState :=
  { analyze := decide (qd.instrument_options ≠ 0) && cfg.log_analyze
    verbose := cfg.log_verbose
    buffers := (decide (qd.instrument_options ≠ 0) && cfg.log_analyze) && cfg.log_buffers
    wal := (decide (qd.instrument_options ≠ 0) && cfg.log_analyze) && cfg.log_wal
    timing := (decide (qd.instrument_options ≠ 0) && cfg.log_analyze) && cfg.log_timing
    summary := decide (qd.instrument_options ≠ 0) && cfg.log_analyze
    format := cfg.log_format
    settings := cfg.log_settings
    costs := true }

/-- The Explain library calls the end hook makes, in order
(lines 373-381); the two conditional ones reflect their guards. -/
inductive RenderStep
  | beginOutput
  | queryText
  | queryParameters
  | printPlan
  | printTriggers
  | printJIT
  | endOutput
deriving DecidableEq, Repr

/-- The sequence of rendering calls the end hook performs for a given
rendering configuration (lines 373-381). -/
def renderSteps (cfg : Config) (es : ExplainState) : List RenderStep :=
  [RenderStep.beginOutput, RenderStep.queryText, RenderStep.queryParameters,
    RenderStep.printPlan]
  ++ (if es.analyze && cfg.log_triggers then [RenderStep.printTriggers] else [])
  ++ (if es.costs then [RenderStep.printJIT] else [])
  ++ [RenderStep.endOutput]

/-- Trailing line-break removal (lines 384-385): when the buffer is
nonempty and its last character is a newline, drop that character. -/
def stripLineBreak (s : List Char) : List Char :=
  if s.getLast? = some '\n' then s.dropLast else s

/-- JSON fix-up (lines 388-392): overwrite position 0 with an opening
brace and position len-1 with a closing brace. -/
def jsonFix (s : List Char) : List Char :=
  (s.set 0 '\x7b').set (s.length - 1) '\x7d'

/-- Post-processing of the rendered buffer (lines 383-392): strip one
trailing newline, then apply the JSON fix-up when the format is JSON. -/
def postProcess (fmt : Format) (s : List Char) : List Char :=
  if fmt = Format.json then jsonFix (stripLineBreak s)
  else stripLineBreak s

/-- One decimal digit as a character. -/
def digit (n : Nat) : Char := Nat.digitChar (n % 10)

/-- The three zero-padded fractional digits printf's %.3f produces. -/
def pad3 (n : Nat) : List Char :=
  [digit (n / 100), digit (n / 10), digit n]

/-- Printf %.3f applied to totaltime->total * 1000.0 (line 402), over
the accumulator's microsecond count: integer milliseconds, a point,
then exactly three fractional digits. -/
def formatMs (us : Nat) : List Char :=
  Nat.toDigits 10 (us / 1000) ++ '.' :: pad3 (us % 1000)

/-- The errmsg format string up to the rendered plan (line 401):
"duration: %.3f ms  plan:\n". -/
def durationHeader (us : Nat) : List Char :=
  "duration: ".toList ++ formatMs us ++ " ms  plan:\n".toList

/-- Observable outcome of the end hook: the message given to ereport
(if any), whether the prior/standard ExecutorEnd was reached, and an
error propagating out of the hook (if any). -/
structure EndResult where
  message : Option (List Char)
  delegateCalled : Bool
  failure : Option PgError
deriving DecidableEq, Repr

/-- explain_ExecutorEnd (lines 339-413).  When the context carries a
totaltime accumulator and the gate is enabled, build the rendering
configuration, render (a host-library call that may raise), post-process
and emit.  The code performs no comparison of the elapsed time against
log_min_duration: the report branch is `if (true)`.  Rendering is not
wrapped in PG_TRY, so an error raised there propagates before the
delegation at lines 409-412 is reached; on every other path the
delegate is called once. -/
def explain_ExecutorEnd (cfg : Config) (nesting_level : Nat)
    (qd : QueryDesc)
    (render : ExplainState → Except PgError (List Char)) : EndResult :=
  match qd.totaltime with
  | some t =>
    if pg_plan_watch_enabled cfg nesting_level then
      match render (makeExplainState cfg qd) with
      | Except.error e =>
        { message := none, delegateCalled := false, failure := some e }
      | Except.ok s =>
        { message := some (durationHeader t.total ++ postProcess cfg.log_format s)
          delegateCalled := true
          failure := none }
    else { message := none, delegateCalled := true, failure := none }
  | none => { message := none, delegateCalled := true, failure := none }

/-! ### Concrete fixtures used by witnesses and counterexamples -/

/-- A baseline configuration: threshold 0 ms (always report), text
format, every optional flag off, timing on (its GUC default). -/
def cfgBase : Config :=
  { log_min_duration := 0
    log_parameter_max_length := -1
    log_analyze := false
    log_verbose := false
    log_buffers := false
    log_wal := false
    log_triggers := false
    log_timing := true
    log_settings := false
    log_format := Format.text
    log_level := 15
    log_nested_statements := false }

/-- Configuration with the disabled sentinel. -/
def cfgDisabled : Config := { cfgBase with log_min_duration := -1 }

/-- Configuration with a positive 10 ms threshold. -/
def cfgThreshold10 : Config := { cfgBase with log_min_duration := 10 }

/-- Configuration with log_analyze on. -/
def cfgAnalyze : Config := { cfgBase with log_analyze := true }

/-- Configuration with JSON output format. -/
def cfgJson : Config := { cfgBase with log_format := Format.json }

/-- A context carrying a zeroed accumulator and no instrumentation. -/
def qdNoInstr : QueryDesc := { instrument_options := 0, totaltime := some { total := 0 } }

/-- A fresh context: no bits requested, no accumulator. -/
def qdEmpty : QueryDesc := { instrument_options := 0, totaltime := none }

/-- A context some other observer already primed: buffer bit set and an
accumulator that has measured 7 microseconds. -/
def qdPrimed : QueryDesc := { instrument_options := 2, totaltime := some { total := 7 } }

/-- A context whose execution took 1000 microseconds = 1 ms. -/
def qdBelow : QueryDesc := { instrument_options := 0, totaltime := some { total := 1000 } }

/-- A context whose execution took 123 microseconds = 0.123 ms. -/
def qdMs : QueryDesc := { instrument_options := 0, totaltime := some { total := 123 } }

/-- A rendering call that succeeds with a fixed plan text. -/
def renderOk : ExplainState → Except PgError (List Char) :=
  fun _ => Except.ok "plan".toList

/-- A rendering call that succeeds with a newline-terminated plan. -/
def renderPlan : ExplainState → Except PgError (List Char) :=
  fun _ => Except.ok "Result\n".toList

/-- A rendering call that raises elog(ERROR). -/
def renderFail : ExplainState → Except PgError (List Char) :=
  fun _ => Except.error PgError.renderFailure

/-- A rendering call producing a one-character buffer. -/
def renderSingle : ExplainState → Except PgError (List Char) :=
  fun _ => Except.ok [ 'x' ]

/-! ### Helper lemmas -/

theorem enabled_eq_false_of_neg (cfg : Config) (n : Nat)
    (h : cfg.log_min_duration < 0) : pg_plan_watch_enabled cfg n = false := by
  unfold pg_plan_watch_enabled
  rw [decide_eq_false (by omega : ¬ (0 : Int) ≤ cfg.log_min_duration)]
  simp

theorem enabled_eq_false_of_nested (cfg : Config) (n : Nat)
    (h1 : cfg.log_nested_statements = false) (h2 : 1 ≤ n) :
    pg_plan_watch_enabled cfg n = false := by
  unfold pg_plan_watch_enabled
  rw [h1, decide_eq_false (by omega : ¬ n = 0)]
  simp

theorem end_id_of_not_enabled (cfg : Config) (n : Nat) (qd : QueryDesc)
    (render : ExplainState → Except PgError (List Char))
    (h : pg_plan_watch_enabled cfg n = false) :
    explain_ExecutorEnd cfg n qd render
      = { message := none, delegateCalled := true, failure := none } := by
  cases htt : qd.totaltime with
  | none => simp [explain_ExecutorEnd, htt]
  | some t => simp [explain_ExecutorEnd, htt, h]

theorem startPre_id_of_not_enabled (cfg : Config) (n : Nat) (qd : QueryDesc)
    (eflags : Nat) (h : pg_plan_watch_enabled cfg n = false) :
    executorStartPre cfg n qd eflags = qd := by
  simp [executorStartPre, h]

theorem addTiming_totaltime (cfg : Config) (qd : QueryDesc) :
    (addTiming cfg qd).totaltime = qd.totaltime := by
  unfold addTiming
  split <;> rfl

theorem addBuffers_totaltime (cfg : Config) (qd : QueryDesc) :
    (addBuffers cfg qd).totaltime = qd.totaltime := by
  unfold addBuffers
  split <;> rfl

theorem addWal_totaltime (cfg : Config) (qd : QueryDesc) :
    (addWal cfg qd).totaltime = qd.totaltime := by
  unfold addWal
  split <;> rfl

theorem addTiming_testBit (cfg : Config) (qd : QueryDesc) (i : Nat)
    (h : qd.instrument_options.testBit i = true) :
    (addTiming cfg qd).instrument_options.testBit i = true := by
  unfold addTiming
  split <;> simp [Nat.testBit_or, h]

theorem addBuffers_testBit (cfg : Config) (qd : QueryDesc) (i : Nat)
    (h : qd.instrument_options.testBit i = true) :
    (addBuffers cfg qd).instrument_options.testBit i = true := by
  unfold addBuffers
  split <;> simp [Nat.testBit_or, h]

theorem addWal_testBit (cfg : Config) (qd : QueryDesc) (i : Nat)
    (h : qd.instrument_options.testBit i = true) :
    (addWal cfg qd).instrument_options.testBit i = true := by
  unfold addWal
  split <;> simp [Nat.testBit_or, h]

theorem startPre_totaltime (cfg : Config) (n : Nat) (qd : QueryDesc)
    (eflags : Nat) :
    (executorStartPre cfg n qd eflags).totaltime = qd.totaltime := by
  unfold executorStartPre
  split
  · split
    · rw [addWal_totaltime, addBuffers_totaltime, addTiming_totaltime]
    · rfl
  · rfl

theorem startPre_testBit (cfg : Config) (n : Nat) (qd : QueryDesc)
    (eflags : Nat) (i : Nat) (h : qd.instrument_options.testBit i = true) :
    (executorStartPre cfg n qd eflags).instrument_options.testBit i = true := by
  unfold executorStartPre
  split
  · split
    · exact addWal_testBit _ _ _ (addBuffers_testBit _ _ _ (addTiming_testBit _ _ _ h))
    · exact h
  · exact h

theorem startPost_of_some (cfg : Config) (n : Nat) (qd : QueryDesc)
    (t : Instr) (h : qd.totaltime = some t) :
    executorStartPost cfg n qd = qd := by
  unfold executorStartPost
  rw [h]
  split <;> rfl

/-- A list's in-place write at its last index is dropLast plus the new
character. -/
theorem set_last_eq (l : List Char) (c : Char) (h : l ≠ []) :
    l.set (l.length - 1) c = l.dropLast ++ [c] := by
  induction l with
  | nil => exact absurd rfl h
  | cons a l ih =>
    cases l with
    | nil => rfl
    | cons b m =>
      have h1 : (a :: b :: m).length - 1 = ((b :: m).length - 1) + 1 := by
        simp
      rw [h1]
      show a :: (b :: m).set ((b :: m).length - 1) c = (a :: b :: m).dropLast ++ [c]
      rw [ih (List.cons_ne_nil b m)]
      rfl

theorem jsonFix_head_last (s : List Char) (h : 2 ≤ s.length) :
    (jsonFix s).head? = some '\x7b'
    ∧ (jsonFix s).getLast? = some '\x7d'
    ∧ (jsonFix s).length = s.length := by
  cases s with
  | nil => simp at h
  | cons a l =>
    cases l with
    | nil => simp at h
    | cons b m =>
      unfold jsonFix
      show (('\x7b' :: b :: m).set (('\x7b' :: b :: m).length - 1) '\x7d').head? = some '\x7b'
        ∧ (('\x7b' :: b :: m).set (('\x7b' :: b :: m).length - 1) '\x7d').getLast? = some '\x7d'
        ∧ (('\x7b' :: b :: m).set (('\x7b' :: b :: m).length - 1) '\x7d').length
            = (a :: b :: m).length
      rw [set_last_eq ('\x7b' :: b :: m) '\x7d' (List.cons_ne_nil _ _)]
      refine ⟨rfl, List.getLast?_concat _, ?_⟩
      simp

/-! ### Claim theorems -/

/-- C3: the instrumentation gate is a pure function of the configuration
and the nesting depth: it is enabled iff duration_threshold is not the
disabled sentinel and (depth = 0 or report_nested_statements); and when
report_nested_statements is false, an execution at depth >= 1 requests
no instrumentation and is never reported. -/
theorem gate_characterization (cfg : Config) (n : Nat) :
    (pg_plan_watch_enabled cfg n = true ↔
      (0 ≤ cfg.log_min_duration ∧ (n = 0 ∨ cfg.log_nested_statements = true)))
    ∧ (cfg.log_nested_statements = false → 1 ≤ n →
        ∀ (qd : QueryDesc) (eflags : Nat)
          (render : ExplainState → Except PgError (List Char)),
          executorStartPre cfg n qd eflags = qd
          ∧ (explain_ExecutorEnd cfg n qd render).message = none) := by
  constructor
  · unfold pg_plan_watch_enabled
    simp [Bool.and_eq_true, Bool.or_eq_true, decide_eq_true_iff]
  · intro h1 h2 qd eflags render
    have he := enabled_eq_false_of_nested cfg n h1 h2
    exact ⟨startPre_id_of_not_enabled cfg n qd eflags he,
      by rw [end_id_of_not_enabled cfg n qd render he]⟩

/-- Witness for gate_characterization: a nested statement at depth 1
with report_nested_statements off and threshold 0 produces no report. -/
theorem gate_characterization_witness :
    cfgBase.log_nested_statements = false ∧ 1 ≤ 1
    ∧ (explain_ExecutorEnd cfgBase 1 qdNoInstr renderOk).message = none :=
  ⟨rfl, by decide,
    ((gate_characterization cfgBase 1).2 rfl (by decide) qdNoInstr 0 renderOk).2⟩

/-- C4: the run- and finish-phase wrappers restore the nesting depth on
both the normal and the failing path, and propagate the delegate's
outcome unchanged. -/
theorem nesting_bracket_restores_depth (n : Nat)
    (dRun dFin : Nat → Except PgError Unit) :
    (explain_ExecutorRun n dRun).snd = n
    ∧ (explain_ExecutorFinish n dFin).snd = n
    ∧ (explain_ExecutorRun n dRun).fst = dRun (n + 1)
    ∧ (explain_ExecutorFinish n dFin).fst = dFin (n + 1) := by
  unfold explain_ExecutorRun explain_ExecutorFinish
  cases dRun (n + 1) <;> cases dFin (n + 1) <;> simp

/-- C5: with the disabled sentinel the start-phase wrapper requests no
instrumentation categories, allocates no accumulator (it is a no-op
around its delegate), and the end-phase wrapper emits no report,
regardless of every other flag. -/
theorem disabled_sentinel_no_accumulator_no_report
    (cfg : Config) (n : Nat) (qd qd2 qd3 : QueryDesc) (eflags : Nat)
    (delegate : QueryDesc → Nat → Bool × QueryDesc)
    (render : ExplainState → Except PgError (List Char))
    (h : cfg.log_min_duration < 0) :
    executorStartPre cfg n qd eflags = qd
    ∧ executorStartPost cfg n qd2 = qd2
    ∧ explain_ExecutorStart cfg n delegate qd eflags = delegate qd eflags
    ∧ (explain_ExecutorEnd cfg n qd3 render).message = none := by
  have he := enabled_eq_false_of_neg cfg n h
  refine ⟨startPre_id_of_not_enabled cfg n qd eflags he, ?_, ?_, ?_⟩
  · simp [executorStartPost, he]
  · unfold explain_ExecutorStart
    rw [startPre_id_of_not_enabled cfg n qd eflags he]
    cases hr : delegate qd eflags with
    | mk valid q =>
      cases valid <;> simp [executorStartPost, he]
  · rw [end_id_of_not_enabled cfg n qd3 render he]

/-- Witness for disabled_sentinel_no_accumulator_no_report at the
concrete disabled configuration. -/
theorem disabled_sentinel_witness :
    cfgDisabled.log_min_duration < 0
    ∧ (explain_ExecutorEnd cfgDisabled 0 qdNoInstr renderOk).message = none
    ∧ executorStartPost cfgDisabled 0 qdEmpty = qdEmpty :=
  ⟨by decide,
    (disabled_sentinel_no_accumulator_no_report cfgDisabled 0 qdEmpty qdEmpty
      qdNoInstr 0 (fun q _ => (true, q)) renderOk (by decide)).2.2.2,
    (disabled_sentinel_no_accumulator_no_report cfgDisabled 0 qdEmpty qdEmpty
      qdNoInstr 0 (fun q _ => (true, q)) renderOk (by decide)).2.1⟩

/-- C9: when eflags carries EXEC_FLAG_EXPLAIN_ONLY, the start-phase
wrapper's pre-delegation step requests nothing: the context is returned
unchanged, whatever the configuration and depth. -/
theorem explain_only_requests_no_instrumentation (cfg : Config) (n : Nat)
    (qd : QueryDesc) (eflags : Nat)
    (h : eflags &&& EXEC_FLAG_EXPLAIN_ONLY ≠ 0) :
    executorStartPre cfg n qd eflags = qd := by
  have hd : decide (eflags &&& EXEC_FLAG_EXPLAIN_ONLY = 0) = false :=
    decide_eq_false h
  simp [executorStartPre, hd]

/-- Witness: EXPLAIN-only flags with the gate enabled and log_analyze
on still request nothing. -/
theorem explain_only_witness :
    (1 &&& EXEC_FLAG_EXPLAIN_ONLY ≠ 0)
    ∧ pg_plan_watch_enabled cfgAnalyze 0 = true
    ∧ cfgAnalyze.log_analyze = true
    ∧ executorStartPre cfgAnalyze 0 qdEmpty 1 = qdEmpty :=
  ⟨by decide, by decide, rfl,
    explain_only_requests_no_instrumentation cfgAnalyze 0 qdEmpty 1 (by decide)⟩

/-- C10: across the start-phase wrapper's own steps, an accumulator that
is already present is kept exactly as it was, and every bit already set
in instrument_options stays set. -/
theorem start_preserves_existing_state (cfg : Config) (n : Nat)
    (qd : QueryDesc) (eflags : Nat) (t : Instr)
    (h : qd.totaltime = some t) :
    (executorStartPost cfg n (executorStartPre cfg n qd eflags)).totaltime = some t
    ∧ ∀ i : Nat, qd.instrument_options.testBit i = true →
        (executorStartPost cfg n
          (executorStartPre cfg n qd eflags)).instrument_options.testBit i = true := by
  have hpre : (executorStartPre cfg n qd eflags).totaltime = some t := by
    rw [startPre_totaltime, h]
  have hpost := startPost_of_some cfg n (executorStartPre cfg n qd eflags) t hpre
  refine ⟨by rw [hpost, hpre], ?_⟩
  intro i hi
  rw [hpost]
  exact startPre_testBit cfg n qd eflags i hi

/-- Witness: a context already carrying bit 1 and a 7-microsecond
accumulator keeps both through the start wrapper. -/
theorem start_preserves_witness :
    qdPrimed.totaltime = some { total := 7 }
    ∧ (executorStartPost cfgAnalyze 0
        (executorStartPre cfgAnalyze 0 qdPrimed 0)).totaltime = some { total := 7 }
    ∧ (executorStartPost cfgAnalyze 0
        (executorStartPre cfgAnalyze 0 qdPrimed 0)).instrument_options.testBit 1 = true :=
  ⟨rfl,
    (start_preserves_existing_state cfgAnalyze 0 qdPrimed 0 { total := 7 } rfl).1,
    (start_preserves_existing_state cfgAnalyze 0 qdPrimed 0 { total := 7 } rfl).2 1
      (by decide)⟩

/-- C1: exhibit that the end-phase wrapper does not compare the elapsed
time against log_min_duration.  With a 10 ms threshold and an execution
of 1000 microseconds = 1 ms (below the threshold), a report is still
emitted, because line 358 of the source reads `if (true)` where the
threshold comparison belongs. -/
theorem end_report_ignores_elapsed_time :
    ∃ t : Instr, qdBelow.totaltime = some t
      ∧ (t.total : Int) < cfgThreshold10.log_min_duration * 1000
      ∧ (0 : Int) < cfgThreshold10.log_min_duration
      ∧ ((explain_ExecutorEnd cfgThreshold10 0 qdBelow renderOk).message).isSome
          = true :=
  ⟨{ total := 1000 }, rfl, by decide, by decide, by decide⟩

/-- C2 counterexample: with the gate enabled and a totaltime present, a
failure raised by the rendering calls propagates out of the end-phase
wrapper before the delegation at the bottom of the function is reached
(there is no PG_TRY around the reporting block), so the prior end-phase
handler is not called. -/
theorem end_render_failure_skips_delegation :
    (explain_ExecutorEnd cfgBase 0 qdNoInstr renderFail).delegateCalled = false
    ∧ (explain_ExecutorEnd cfgBase 0 qdNoInstr renderFail).failure
        = some PgError.renderFailure := by
  exact ⟨rfl, rfl⟩

/-- C2 amended: the end-phase wrapper delegates exactly once on every
path on which its own rendering raises no failure; equivalently, the
delegate is reached iff no rendering failure propagates. -/
theorem end_delegation_iff_no_failure (cfg : Config) (n : Nat)
    (qd : QueryDesc) (render : ExplainState → Except PgError (List Char)) :
    (explain_ExecutorEnd cfg n qd render).delegateCalled = true
    ↔ (explain_ExecutorEnd cfg n qd render).failure = none := by
  cases htt : qd.totaltime with
  | none => simp [explain_ExecutorEnd, htt]
  | some t =>
    by_cases he : pg_plan_watch_enabled cfg n = true
    · cases hr : render (makeExplainState cfg qd) with
      | error e => simp [explain_ExecutorEnd, htt, he, hr]
      | ok s => simp [explain_ExecutorEnd, htt, he, hr]
    · simp [explain_ExecutorEnd, htt, he]

/-- C6: with collect_detailed_stats (log_analyze) off, the buffer,
write-log and trigger sub-flags change nothing observable: neither the
requested instrumentation categories, nor the rendering configuration,
nor the sequence of rendering calls, nor the end-phase outcome. -/
theorem subflags_noop_without_analyze (cfg : Config) (b w tr : Bool)
    (n : Nat) (qd : QueryDesc) (eflags : Nat)
    (render : ExplainState → Except PgError (List Char))
    (h : cfg.log_analyze = false) :
    executorStartPre { cfg with log_buffers := b, log_wal := w, log_triggers := tr }
        n qd eflags
      = executorStartPre cfg n qd eflags
    ∧ makeExplainState { cfg with log_buffers := b, log_wal := w, log_triggers := tr } qd
      = makeExplainState cfg qd
    ∧ renderSteps { cfg with log_buffers := b, log_wal := w, log_triggers := tr }
        (makeExplainState { cfg with log_buffers := b, log_wal := w, log_triggers := tr } qd)
      = renderSteps cfg (makeExplainState cfg qd)
    ∧ explain_ExecutorEnd { cfg with log_buffers := b, log_wal := w, log_triggers := tr }
        n qd render
      = explain_ExecutorEnd cfg n qd render := by
  have hes : makeExplainState { cfg with log_buffers := b, log_wal := w, log_triggers := tr } qd
      = makeExplainState cfg qd := by
    simp [makeExplainState, h]
  refine ⟨?_, hes, ?_, ?_⟩
  · simp [executorStartPre, pg_plan_watch_enabled, h]
  · rw [hes]
    simp [renderSteps, makeExplainState, h]
  · cases htt : qd.totaltime with
    | none => simp [explain_ExecutorEnd, htt]
    | some t => simp [explain_ExecutorEnd, htt, hes, pg_plan_watch_enabled]

/-- Witness: turning all three sub-flags on while log_analyze is off
leaves the end-phase outcome unchanged. -/
theorem subflags_noop_witness :
    cfgBase.log_analyze = false
    ∧ explain_ExecutorEnd
        { cfgBase with log_buffers := true, log_wal := true, log_triggers := true }
        0 qdNoInstr renderOk
      = explain_ExecutorEnd cfgBase 0 qdNoInstr renderOk :=
  ⟨rfl,
    (subflags_noop_without_analyze cfgBase true true true 0 qdNoInstr 0 renderOk
      rfl).2.2.2⟩

/-- C7 counterexample: a one-character rendered buffer refutes the
claim.  Both writes of the JSON fix-up land on the same position, so the
emitted text is a single closing brace: it does not begin with an
opening brace, and the full end-phase report for that buffer carries
exactly that single brace as its plan text. -/
theorem json_fix_singleton_not_object :
    postProcess Format.json [ 'x' ] = [ '\x7d' ]
    ∧ ¬ ((postProcess Format.json [ 'x' ]).head? = some '\x7b'
          ∧ (postProcess Format.json [ 'x' ]).getLast? = some '\x7d')
    ∧ (explain_ExecutorEnd cfgJson 0 qdNoInstr renderSingle).message
        = some (durationHeader 0 ++ [ '\x7d' ]) := by
  refine ⟨by decide, ?_, by decide⟩
  intro hc
  exact absurd hc.1 (by decide)

/-- C7 amended: for every rendered input that still has at least two
characters after the trailing-newline strip, the JSON post-processing
yields a buffer that begins with an opening brace and ends with a
closing brace, with its length unchanged. -/
theorem json_fix_wraps_object (s : List Char)
    (h : 2 ≤ (stripLineBreak s).length) :
    (postProcess Format.json s).head? = some '\x7b'
    ∧ (postProcess Format.json s).getLast? = some '\x7d'
    ∧ (postProcess Format.json s).length = (stripLineBreak s).length := by
  have hj := jsonFix_head_last (stripLineBreak s) h
  simpa [postProcess] using hj

/-- Witness: the smallest array-like JSON render, stripped of its
newline, becomes a brace-wrapped object. -/
theorem json_fix_wraps_object_witness :
    2 ≤ (stripLineBreak "[ ]\n".toList).length
    ∧ (postProcess Format.json "[ ]\n".toList).head? = some '\x7b'
    ∧ (postProcess Format.json "[ ]\n".toList).getLast? = some '\x7d' :=
  ⟨by decide,
    (json_fix_wraps_object ("[ ]\n".toList) (by decide)).1,
    (json_fix_wraps_object ("[ ]\n".toList) (by decide)).2.1⟩

/-- C8: the emitted message is exactly the duration header — "duration: ",
the elapsed milliseconds with exactly three digits after the point,
" ms  plan:\n" — followed by the post-processed plan text; the
post-processing strips exactly one trailing line-break when one is
present, leaves the text unchanged when absent, and is total on the
empty string; for the text format the post-processing is exactly that
strip. -/
theorem end_message_wire_format (cfg : Config) (n : Nat) (qd : QueryDesc)
    (t : Instr) (s : List Char)
    (render : ExplainState → Except PgError (List Char))
    (h1 : qd.totaltime = some t)
    (h2 : pg_plan_watch_enabled cfg n = true)
    (h3 : render (makeExplainState cfg qd) = Except.ok s) :
    (explain_ExecutorEnd cfg n qd render).message
      = some ("duration: ".toList ++ formatMs t.total
          ++ " ms  plan:\n".toList ++ postProcess cfg.log_format s)
    ∧ (∀ u : List Char, stripLineBreak (u ++ [ '\n' ]) = u)
    ∧ (∀ u : List Char, u.getLast? ≠ some '\n' → stripLineBreak u = u)
    ∧ stripLineBreak [] = []
    ∧ (cfg.log_format = Format.text → postProcess cfg.log_format s = stripLineBreak s)
    ∧ ∃ ip fp, formatMs t.total = ip ++ '.' :: fp ∧ fp.length = 3 := by
  refine ⟨?_, ?_, ?_, rfl, ?_, ?_⟩
  · simp [explain_ExecutorEnd, h1, h2, h3, durationHeader]
  · intro u
    unfold stripLineBreak
    rw [if_pos (List.getLast?_concat u), List.dropLast_concat]
  · intro u hu
    unfold stripLineBreak
    rw [if_neg hu]
  · intro hf
    rw [hf]
    rfl
  · exact ⟨Nat.toDigits 10 (t.total / 1000), pad3 (t.total % 1000), rfl, rfl⟩

/-- Witness: an execution of 123 microseconds with a newline-terminated
one-line plan yields exactly "duration: 0.123 ms  plan:" and the plan
with its newline stripped. -/
theorem end_message_wire_format_witness :
    qdMs.totaltime = some { total := 123 }
    ∧ pg_plan_watch_enabled cfgBase 0 = true
    ∧ (explain_ExecutorEnd cfgBase 0 qdMs renderPlan).message
        = some ("duration: ".toList ++ formatMs 123
            ++ " ms  plan:\n".toList ++ postProcess cfgBase.log_format "Result\n".toList)
    ∧ (explain_ExecutorEnd cfgBase 0 qdMs renderPlan).message
        = some "duration: 0.123 ms  plan:\nResult".toList :=
  ⟨rfl, by decide,
    (end_message_wire_format cfgBase 0 qdMs { total := 123 } ("Result\n".toList)
      renderPlan rfl (by decide) rfl).1,
    by decide⟩

end PgPlanWatch
